import Mathlib

/-!
# Authentication and session-lifecycle subsystem of the StaplerCup social media manager

Shallow embedding of the auth core of the repository.  The repository ships
the same business logic in two deployment variants:

* the serverless variant (`src/api/auth.ts`, `src/api/_lib/auth.ts`,
  `src/api/_lib/db.ts`, the `src/api/auth/users/*` handlers, and the init
  handler), backed by Postgres, and
* the long-running backend variant (`src/backend/src/services/openai.service.ts`
  auth router, `src/backend/src/middleware/auth.middleware.ts`, the
  `auth.service` module and the better-sqlite3 statement layer found in the
  unnamed source parts), backed by SQLite.

The store is modelled as an explicit `Db` value threaded through each
operation; SQL single-row statements become list operations with the same
semantics (`find?`, `filter`, append).  Timestamps are integers; `Date`
comparison `new Date(a) < new Date(b)` becomes `a < b`.  JavaScript string
falsiness (`if (!x)`) of a possibly-absent field is modelled as the field
being `none` or the empty string.  bcrypt hashing/verification is an
abstract function parameter, and JWT signing is modelled symbolically: a
signed token records its payload, the signing secret, and the issued-at and
expiry timestamps, and verification checks the secret and expiry exactly the
way jsonwebtoken reports `JsonWebTokenError` (bad signature / malformed)
versus `TokenExpiredError` (signature fine, past `exp`).
-/

namespace Staplercup

/-! ## Roles, users and rows (src/api/_lib/auth.ts, src/backend/src/types/auth.ts) -/

/-- `type Role = 'admin' | 'manager' | 'viewer'`. -/
inductive Role
  | admin
  | manager
  | viewer
deriving DecidableEq, Repr

/-- A row of the `users` table.  The serverless `User` interface carries
`email_verified: number`; the backend SQLite schema gains the same column via
`ALTER TABLE users ADD COLUMN email_verified INTEGER DEFAULT 0`. -/
structure User where
  id : Nat
  email : String
  password_hash : String
  name : String
  role : Role
  email_verified : Int
  created_at : Int
  updated_at : Int
deriving DecidableEq, Repr

/-- `UserPublic`: a `User` with `password_hash` removed. -/
structure UserPublic where
  id : Nat
  email : String
  name : String
  role : Role
  email_verified : Int
  created_at : Int
  updated_at : Int
deriving DecidableEq, Repr

/-- `toPublicUser` drops `password_hash` and keeps every other field. -/
def toPublicUser (u : User) : UserPublic :=
  ⟨u.id, u.email, u.name, u.role, u.email_verified, u.created_at, u.updated_at⟩

/-- A row of the `refresh_tokens` table. -/
structure RefreshTokenRow where
  user_id : Nat
  token : String
  expires_at : Int
  created_at : Int
deriving DecidableEq, Repr

/-- A row of the `email_verification_tokens` table. -/
structure VerificationTokenRow where
  email : String
  token : String
  name : String
  password_hash : String
  expires_at : Int
  created_at : Int
deriving DecidableEq, Repr

/-- The relational store the auth core reads and writes: the three tables,
plus the id sequence feeding `users.id` (SERIAL / AUTOINCREMENT). -/
structure Db where
  nextUserId : Nat
  users : List User
  refresh_tokens : List RefreshTokenRow
  verification_tokens : List VerificationTokenRow
deriving DecidableEq, Repr

/-! ## User Store operations (src/api/_lib/db.ts; identical single-row SQL in
the backend statement layer) -/

/-- `SELECT * FROM users WHERE email = ?` -/
def findUserByEmail (email : String) (db : Db) : Option User :=
  db.users.find? (fun u => u.email == email)

/-- `SELECT * FROM users WHERE id = ?` -/
def findUserById (id : Nat) (db : Db) : Option User :=
  db.users.find? (fun u => u.id == id)

/-- Parameters of `createUser`.  In the serverless variant `emailVerified` is
an optional field (`emailVerified?: number`); the backend variant's
`CreateUserParams` does not declare it but its callers may still pass it, so
the same optional field models both call shapes. -/
structure CreateUserParams where
  email : String
  passwordHash : String
  name : String
  role : Role
  emailVerified : Option Int
deriving DecidableEq, Repr

/-- Serverless `createUser`: `INSERT INTO users (email, password_hash, name,
role, email_verified) VALUES (..., ${params.emailVerified || 0}) RETURNING *`.
The JavaScript `||` sends both an absent field and `0` to `0`, which is
`Option.getD 0`. -/
def createUser (p : CreateUserParams) (now : Int) (db : Db) : User × Db :=
  let u : User :=
    ⟨db.nextUserId, p.email, p.passwordHash, p.name, p.role, p.emailVerified.getD 0, now, now⟩
  (u, { db with nextUserId := db.nextUserId + 1, users := db.users ++ [u] })

/-- Errors raised by the better-sqlite3 statement layer of the backend
variant. -/
inductive SqlError
  | missingNamedParameter
deriving DecidableEq, Repr

/-- Backend `createUser` (auth.service → `userStatements.create.run(params)`).
The prepared statement is `INSERT INTO users (email, password_hash, name,
role, email_verified) VALUES (@email, @passwordHash, @name, @role,
@emailVerified)`; better-sqlite3 throws "Missing named parameter" when the
bind object lacks a key the statement names, so a call without
`emailVerified` raises instead of inserting. -/
def backendCreateUser (p : CreateUserParams) (now : Int) (db : Db) :
    Except SqlError (User × Db) :=
  match p.emailVerified with
  | none => .error .missingNamedParameter
  | some v =>
    let u : User := ⟨db.nextUserId, p.email, p.passwordHash, p.name, p.role, v, now, now⟩
    .ok (u, { db with nextUserId := db.nextUserId + 1, users := db.users ++ [u] })

/-- `SELECT COUNT(*) as count FROM users` -/
def getUserCount (db : Db) : Nat :=
  db.users.length

/-- `DELETE FROM users WHERE id = ?`, returning whether a row changed. -/
def deleteUser (id : Nat) (db : Db) : Bool × Db :=
  (db.users.any (fun u => u.id == id),
   { db with users := db.users.filter (fun u => u.id != id) })

/-- `UPDATE users SET role = ?, updated_at = CURRENT_TIMESTAMP WHERE id = ?`,
returning whether a row changed. -/
def updateUserRole (id : Nat) (role : Role) (now : Int) (db : Db) : Bool × Db :=
  let f := fun (u : User) => if u.id == id then { u with role := role, updated_at := now } else u
  (db.users.any (fun u => u.id == id), { db with users := db.users.map f })

/-- `INSERT INTO refresh_tokens (user_id, token, expires_at) VALUES (...)` -/
def saveRefreshToken (row : RefreshTokenRow) (db : Db) : Db :=
  { db with refresh_tokens := db.refresh_tokens ++ [row] }

/-- `SELECT * FROM refresh_tokens WHERE token = ?` -/
def findRefreshToken (token : String) (db : Db) : Option RefreshTokenRow :=
  db.refresh_tokens.find? (fun r => r.token == token)

/-- `DELETE FROM refresh_tokens WHERE token = ?`, returning whether a row
changed. -/
def deleteRefreshToken (token : String) (db : Db) : Bool × Db :=
  (db.refresh_tokens.any (fun r => r.token == token),
   { db with refresh_tokens := db.refresh_tokens.filter (fun r => r.token != token) })

/-- `DELETE FROM refresh_tokens WHERE user_id = ?` -/
def deleteUserRefreshTokens (userId : Nat) (db : Db) : Db :=
  { db with refresh_tokens := db.refresh_tokens.filter (fun r => r.user_id != userId) }

/-- `DELETE FROM refresh_tokens WHERE expires_at < CURRENT_TIMESTAMP` -/
def cleanupExpiredTokens (now : Int) (db : Db) : Db :=
  { db with refresh_tokens := db.refresh_tokens.filter (fun r => !(r.expires_at < now : Bool)) }

/-- Parameters of `createVerificationToken`. -/
structure CreateVerificationTokenParams where
  email : String
  token : String
  name : String
  passwordHash : String
  expiresAt : Int
deriving DecidableEq, Repr

/-- `createVerificationToken`: first `DELETE FROM email_verification_tokens
WHERE email = ?`, then `INSERT INTO email_verification_tokens (email, token,
name, password_hash, expires_at) VALUES (...)` — delete-then-insert, in both
variants. -/
def createVerificationToken (p : CreateVerificationTokenParams) (now : Int) (db : Db) : Db :=
  let afterDelete := db.verification_tokens.filter (fun v => v.email != p.email)
  { db with verification_tokens :=
      afterDelete ++ [⟨p.email, p.token, p.name, p.passwordHash, p.expiresAt, now⟩] }

/-- `SELECT * FROM email_verification_tokens WHERE token = ?` -/
def findVerificationToken (token : String) (db : Db) : Option VerificationTokenRow :=
  db.verification_tokens.find? (fun v => v.token == token)

/-- `DELETE FROM email_verification_tokens WHERE token = ?`, returning whether
a row changed. -/
def deleteVerificationToken (token : String) (db : Db) : Bool × Db :=
  (db.verification_tokens.any (fun v => v.token == token),
   { db with verification_tokens := db.verification_tokens.filter (fun v => v.token != token) })

/-- `DELETE FROM email_verification_tokens WHERE expires_at < now` -/
def cleanupExpiredVerificationTokens (now : Int) (db : Db) : Db :=
  { db with verification_tokens :=
      db.verification_tokens.filter (fun v => !(v.expires_at < now : Bool)) }

/-! ## Token Issuer (src/api/_lib/auth.ts; backend auth.service) -/

/-- `TokenPayload { userId, email, role }` — the claims embedded in a signed
access token. -/
structure TokenPayload where
  userId : Nat
  email : String
  role : Role
deriving DecidableEq, Repr

/-- A well-formed signed token as produced by `jwt.sign(payload, secret,
{ expiresIn })`: the payload plus the signing secret and the issued-at /
expiry timestamps.  Recording the secret models the signature: verification
with a different secret fails. -/
structure SignedToken where
  payload : TokenPayload
  secret : String
  iat : Int
  exp : Int
deriving DecidableEq, Repr

/-- A bearer-token string on the wire: either a structurally valid signed
token, or any malformed / tampered string (which jsonwebtoken rejects as
`JsonWebTokenError`). -/
inductive JwtInput
  | signed (t : SignedToken)
  | malformed (s : String)
deriving DecidableEq, Repr

/-- The two failure modes of `jwt.verify`: `TokenExpiredError` versus every
other `JsonWebTokenError` (bad signature, malformed, wrong secret). -/
inductive VerifyError
  | expired
  | invalid
deriving DecidableEq, Repr

/-- `jwt.sign(payload, secret, { expiresIn })` at time `now` with lifetime
`expSec` seconds. -/
def jwtSign (p : TokenPayload) (secret : String) (now expSec : Int) : SignedToken :=
  ⟨p, secret, now, now + expSec⟩

/-- `jwt.verify(token, secret)` at time `now`.  jsonwebtoken validates the
signature first (wrong secret or malformed input throws `JsonWebTokenError`),
then the `exp` claim: it throws `TokenExpiredError` when
`clockTimestamp >= payload.exp` (RFC 7519 — the current time must be strictly
before `exp`), so a token is accepted only while `now < exp`. -/
def jwtVerify (tok : JwtInput) (secret : String) (now : Int) : Except VerifyError TokenPayload :=
  match tok with
  | .malformed _ => .error .invalid
  | .signed t =>
    if t.secret != secret then .error .invalid
    else if t.exp ≤ now then .error .expired
    else .ok t.payload

/-- The hard-coded fallback secret of the serverless variant
(src/api/_lib/auth.ts). -/
def defaultJwtSecret : String := "default-secret-change-in-production"

/-- `process.env.JWT_SECRET || 'default-secret-change-in-production'`: an
unset variable is `none`, and JavaScript `||` also treats the empty string as
falsy. -/
def jwtSecretOf (envSecret : Option String) : String :=
  match envSecret with
  | none => defaultJwtSecret
  | some s => if s == "" then defaultJwtSecret else s

/-- Serverless `generateAccessToken`: sign the payload with the environment
secret or the hard-coded fallback. -/
def generateAccessToken (envSecret : Option String) (p : TokenPayload) (now expSec : Int) :
    SignedToken :=
  jwtSign p (jwtSecretOf envSecret) now expSec

/-- Serverless `verifyAccessToken`: verify with the environment secret or the
hard-coded fallback. -/
def verifyAccessToken (envSecret : Option String) (tok : JwtInput) (now : Int) :
    Except VerifyError TokenPayload :=
  jwtVerify tok (jwtSecretOf envSecret) now

/-! ## Authorization Middleware (src/backend/src/middleware/auth.middleware.ts) -/

/-- The `Authorization` header of a request, as seen by `requireAuth`:
absent, present but not of the shape `Bearer <token>`, or a bearer token. -/
inductive AuthHeader
  | absent
  | notBearer (s : String)
  | bearer (tok : JwtInput)
deriving DecidableEq, Repr

/-- A JSON error response: HTTP status, `error` message, and the optional
machine-readable `code` field. -/
structure ErrorResponse where
  status : Nat
  error : String
  code : Option String
deriving DecidableEq, Repr

/-- Outcome of the `requireAuth` middleware: reject with an error response,
or attach the decoded payload to the request (`req.user = payload; next()`). -/
inductive AuthOutcome
  | reject (r : ErrorResponse)
  | pass (payload : TokenPayload)
deriving DecidableEq, Repr

/-- `requireAuth`: 401 if the header is absent or does not start with
`Bearer `; otherwise verify the token, catching `TokenExpiredError` as a 401
carrying `code: 'TOKEN_EXPIRED'` and any other verification error as a
generic 401 `Ungültiger Token`. -/
def requireAuth (header : AuthHeader) (secret : String) (now : Int) : AuthOutcome :=
  match header with
  | .absent => .reject ⟨401, "Authentifizierung erforderlich", none⟩
  | .notBearer _ => .reject ⟨401, "Authentifizierung erforderlich", none⟩
  | .bearer tok =>
    match jwtVerify tok secret now with
    | .ok payload => .pass payload
    | .error .expired => .reject ⟨401, "Token abgelaufen", some "TOKEN_EXPIRED"⟩
    | .error .invalid => .reject ⟨401, "Ungültiger Token", none⟩

/-- `requireRole(...roles)`: 401 if no payload is attached, 403 if the
payload's role is not among the allowed ones, otherwise pass through. -/
def requireRole (roles : List Role) (user : Option TokenPayload) : AuthOutcome :=
  match user with
  | none => .reject ⟨401, "Authentifizierung erforderlich", none⟩
  | some payload =>
    if !(roles.contains payload.role) then
      .reject ⟨403, "Keine Berechtigung für diese Aktion", none⟩
    else .pass payload

/-! ## HTTP responses and the Authentication Service handlers -/

/-- The JSON response of an auth route: HTTP status plus the possible body
fields (`error`, `code`, `user`, `accessToken`, `message`) and the value of
the `refreshToken` cookie set by the response, when any. -/
structure ApiResponse where
  status : Nat
  error : Option String := none
  code : Option String := none
  user : Option UserPublic := none
  accessToken : Option SignedToken := none
  message : Option String := none
  setCookie : Option String := none
deriving DecidableEq, Repr

/-- An error response with the given status and message. -/
def errResp (status : Nat) (msg : String) : ApiResponse :=
  { status := status, error := some msg }

/-- Request-independent inputs of a handler invocation: the clock, the
signing secret from the environment, the configured access-token lifetime,
and the output of the random generator for the refresh token issued by this
invocation (`crypto.randomBytes(64).toString('hex')`) together with its
computed expiry (`getRefreshTokenExpiry()`). -/
structure AuthCtx where
  now : Int
  jwtSecretEnv : Option String
  accessExpSec : Int
  newRefreshToken : String
  refreshExpiry : Int
deriving DecidableEq, Repr

/-- `handleLogin` (serverless `src/api/auth.ts`; the backend
`router.post('/login')` is line-for-line the same logic): missing fields →
400; unknown email → 401 `Ungültige Anmeldedaten`; failed password check →
the same 401 `Ungültige Anmeldedaten`; otherwise sign an access token from
`{userId, email, role}`, persist the freshly generated refresh token and
return the public user, the access token, and the refresh cookie.
`verify` is the bcrypt comparison. -/
def handleLogin (email password : String) (verify : String → String → Bool)
    (ctx : AuthCtx) (db : Db) : ApiResponse × Db :=
  if email == "" || password == "" then
    (errResp 400 "E-Mail und Passwort sind erforderlich", db)
  else
    match findUserByEmail email db with
    | none => (errResp 401 "Ungültige Anmeldedaten", db)
    | some user =>
      if !(verify password user.password_hash) then
        (errResp 401 "Ungültige Anmeldedaten", db)
      else
        let accessToken := generateAccessToken ctx.jwtSecretEnv
          ⟨user.id, user.email, user.role⟩ ctx.now ctx.accessExpSec
        let db1 := saveRefreshToken
          ⟨user.id, ctx.newRefreshToken, ctx.refreshExpiry, ctx.now⟩ db
        ({ status := 200, user := some (toPublicUser user),
           accessToken := some accessToken,
           setCookie := some ctx.newRefreshToken }, db1)

/-- `handleLogout` (serverless; the backend `router.post('/logout')` handler
body is the same): delete the refresh token from the cookie if one is present
(`if (refreshToken)` — absent or empty is falsy and skips the delete), clear
the cookie, and always answer 200. -/
def handleLogout (cookieRefreshToken : Option String) (db : Db) : ApiResponse × Db :=
  let db1 :=
    match cookieRefreshToken with
    | some t => if t == "" then db else (deleteRefreshToken t db).2
    | none => db
  ({ status := 200, message := some "Erfolgreich abgemeldet", setCookie := some "" }, db1)

/-- `handleRefresh` (serverless; the backend `router.post('/refresh')` is the
same logic): no cookie → 401; unknown token → 401 `Ungültiger Refresh-Token`;
stored expiry in the past → delete it and 401; owning user gone → delete it
and 401; otherwise issue a new access token, delete the presented refresh
token, persist the freshly generated one and return it as the new cookie. -/
def handleRefresh (cookieRefreshToken : Option String) (ctx : AuthCtx) (db : Db) :
    ApiResponse × Db :=
  match cookieRefreshToken with
  | none => (errResp 401 "Kein Refresh-Token vorhanden", db)
  | some refreshToken =>
    if refreshToken == "" then (errResp 401 "Kein Refresh-Token vorhanden", db)
    else
      match findRefreshToken refreshToken db with
      | none => (errResp 401 "Ungültiger Refresh-Token", db)
      | some storedToken =>
        if storedToken.expires_at < ctx.now then
          (errResp 401 "Refresh-Token abgelaufen", (deleteRefreshToken refreshToken db).2)
        else
          match findUserById storedToken.user_id db with
          | none =>
            (errResp 401 "Benutzer nicht gefunden", (deleteRefreshToken refreshToken db).2)
          | some user =>
            let accessToken := generateAccessToken ctx.jwtSecretEnv
              ⟨user.id, user.email, user.role⟩ ctx.now ctx.accessExpSec
            let db1 := (deleteRefreshToken refreshToken db).2
            let db2 := saveRefreshToken
              ⟨user.id, ctx.newRefreshToken, ctx.refreshExpiry, ctx.now⟩ db1
            ({ status := 200, user := some (toPublicUser user),
               accessToken := some accessToken,
               setCookie := some ctx.newRefreshToken }, db2)

/-- `handleVerifyEmail` (serverless; the backend `router.get('/verify-email')`
is the same logic): missing token → 400; unknown token → 400 `Ungültiger oder
abgelaufener Verifizierungstoken`; expired → delete the token and 400; a user
with that email already exists → delete the token and 409; otherwise create
the user as a pre-verified viewer from the stored payload, delete the token,
and 200. -/
def handleVerifyEmail (token : String) (now : Int) (db : Db) : ApiResponse × Db :=
  if token == "" then (errResp 400 "Verifizierungstoken fehlt", db)
  else
    match findVerificationToken token db with
    | none => (errResp 400 "Ungültiger oder abgelaufener Verifizierungstoken", db)
    | some verificationData =>
      if verificationData.expires_at < now then
        (errResp 400 "Verifizierungstoken ist abgelaufen", (deleteVerificationToken token db).2)
      else
        match findUserByEmail verificationData.email db with
        | some _ =>
          (errResp 409 "Ein Benutzer mit dieser E-Mail existiert bereits",
           (deleteVerificationToken token db).2)
        | none =>
          let created := createUser
            ⟨verificationData.email, verificationData.password_hash,
             verificationData.name, .viewer, some 1⟩ now db
          let db2 := (deleteVerificationToken token created.2).2
          ({ status := 200,
             message := some "E-Mail erfolgreich verifiziert. Sie können sich jetzt anmelden.",
             user := some (toPublicUser created.1) }, db2)

/-- `validRoles = ['admin', 'manager', 'viewer']` membership combined with
decoding the role string of the request body. -/
def roleOfString (s : String) : Option Role :=
  if s == "admin" then some .admin
  else if s == "manager" then some .manager
  else if s == "viewer" then some .viewer
  else none

/-- Serverless `handleRegister` (`POST /api/auth/register`, admin only): the
handler verifies the bearer token inline, requires `payload.role === 'admin'`,
requires the body fields, rejects a duplicate email with 409, validates the
role (`role = 'viewer'` when the body omits it), hashes the password and
creates the user with `emailVerified: 1`. -/
def handleRegister (auth : Option JwtInput) (hash : String → String)
    (ctx : AuthCtx) (email password name : String) (role : Option String)
    (db : Db) : ApiResponse × Db :=
  match auth with
  | none => (errResp 401 "Nicht authentifiziert", db)
  | some tok =>
    match verifyAccessToken ctx.jwtSecretEnv tok ctx.now with
    | .error _ => (errResp 401 "Ungültiger Token", db)
    | .ok payload =>
      if payload.role != Role.admin then (errResp 403 "Keine Berechtigung", db)
      else
        let roleStr := role.getD "viewer"
        if email == "" || password == "" || name == "" then
          (errResp 400 "E-Mail, Passwort und Name sind erforderlich", db)
        else
          match findUserByEmail email db with
          | some _ => (errResp 409 "Ein Benutzer mit dieser E-Mail existiert bereits", db)
          | none =>
            match roleOfString roleStr with
            | none => (errResp 400 "Ungültige Rolle", db)
            | some r =>
              let created := createUser ⟨email, hash password, name, r, some 1⟩ ctx.now db
              ({ status := 201, user := some (toPublicUser created.1) }, created.2)

/-- Backend `router.post('/register')` handler body (runs behind `requireAuth,
requireRole('admin')`): same field, duplicate-email and role checks, but its
`createUser` call passes no `emailVerified` field, so the prepared statement's
`@emailVerified` parameter is unbound and better-sqlite3 throws; the handler's
`catch` turns that into a 500 with nothing inserted. -/
def backendRegister (hash : String → String) (now : Int)
    (email password name : String) (role : Option String) (db : Db) : ApiResponse × Db :=
  let roleStr := role.getD "viewer"
  if email == "" || password == "" || name == "" then
    (errResp 400 "E-Mail, Passwort und Name sind erforderlich", db)
  else
    match findUserByEmail email db with
    | some _ => (errResp 409 "Ein Benutzer mit dieser E-Mail existiert bereits", db)
    | none =>
      match roleOfString roleStr with
      | none => (errResp 400 "Ungültige Rolle", db)
      | some r =>
        match backendCreateUser ⟨email, hash password, name, r, none⟩ now db with
        | .error _ => (errResp 500 "Interner Serverfehler", db)
        | .ok created => ({ status := 201, user := some (toPublicUser created.1) }, created.2)

/-- The email shape test `/^[^\s@]+@[^\s@]+\.[^\s@]+$/` of `register-public`:
exactly one `@`; both sides non-empty and free of whitespace; and the domain
side contains a `.` that is neither its first nor its last character. -/
def emailRegexTest (s : String) : Bool :=
  match s.toList.splitOn '@' with
  | [l, d] =>
    !l.isEmpty && !d.isEmpty &&
    (l ++ d).all (fun c => !c.isWhitespace) &&
    (d.drop 1).dropLast.contains '.'
  | _ => false

/-- `handleRegisterPublic` (serverless; the backend
`router.post('/register-public')` is the same logic with
`config.registrationEnabled`): registration disabled → 403; missing fields →
400; bad email shape → 400; password shorter than 8 → 400; existing user →
409; otherwise hash the password, create/replace the verification token for
this email (delete-then-insert), and 500 without rolling the token back when
the mailer fails, else 201.  `registrationEnabledEnv` is
`process.env.REGISTRATION_ENABLED`, disabled exactly when it equals the
string `'false'`. -/
def handleRegisterPublic (registrationEnabledEnv : Option String)
    (email password name : String) (hash : String → String)
    (verificationTokenValue : String) (now verificationExpiry : Int)
    (mailerOk : Bool) (db : Db) : ApiResponse × Db :=
  if registrationEnabledEnv == some "false" then
    (errResp 403 "Registrierung ist deaktiviert", db)
  else if email == "" || password == "" || name == "" then
    (errResp 400 "E-Mail, Passwort und Name sind erforderlich", db)
  else if !emailRegexTest email then
    (errResp 400 "Ungültiges E-Mail-Format", db)
  else if password.length < 8 then
    (errResp 400 "Das Passwort muss mindestens 8 Zeichen lang sein", db)
  else
    match findUserByEmail email db with
    | some _ => (errResp 409 "Ein Benutzer mit dieser E-Mail existiert bereits", db)
    | none =>
      let db1 := createVerificationToken
        ⟨email, verificationTokenValue, name, hash password, verificationExpiry⟩ now db
      if !mailerOk then
        (errResp 500 "E-Mail konnte nicht gesendet werden. Bitte versuchen Sie es später erneut.",
         db1)
      else
        ({ status := 201,
           message := some "Registrierung erfolgreich. Bitte überprüfen Sie Ihre E-Mail, um Ihr Konto zu bestätigen." },
         db1)

/-! ## User management handlers (backend `router.delete('/users/:id')` /
`router.put('/users/:id/role')`; the serverless users handler has identical
delete / role-update logic).  `targetId` is the parsed `:id` path parameter,
`none` when `parseInt` produced `NaN`.  `payload` is the authenticated
caller's token payload attached by the middleware. -/

/-- Delete-user handler: invalid id → 400; the caller's own id → 400 before
any store call; otherwise delete the target's refresh tokens, then the
target, 404 when no row changed. -/
def deleteUserHandler (payload : TokenPayload) (targetId : Option Nat) (db : Db) :
    ApiResponse × Db :=
  match targetId with
  | none => (errResp 400 "Ungültige Benutzer-ID", db)
  | some userId =>
    if payload.userId == userId then
      (errResp 400 "Sie können sich nicht selbst löschen", db)
    else
      let db1 := deleteUserRefreshTokens userId db
      let deleted := deleteUser userId db1
      if !deleted.1 then (errResp 404 "Benutzer nicht gefunden", deleted.2)
      else ({ status := 200, message := some "Benutzer erfolgreich gelöscht" }, deleted.2)

/-- Role-update handler: invalid id → 400; invalid role → 400; the caller's
own id → 400 before any store call; otherwise update, 404 when no row
changed, else return the re-fetched public user. -/
def updateRoleHandler (payload : TokenPayload) (targetId : Option Nat)
    (role : Option String) (now : Int) (db : Db) : ApiResponse × Db :=
  match targetId with
  | none => (errResp 400 "Ungültige Benutzer-ID", db)
  | some userId =>
    match role.bind roleOfString with
    | none => (errResp 400 "Ungültige Rolle", db)
    | some r =>
      if payload.userId == userId then
        (errResp 400 "Sie können Ihre eigene Rolle nicht ändern", db)
      else
        let updated := updateUserRole userId r now db
        if !updated.1 then (errResp 404 "Benutzer nicht gefunden", updated.2)
        else
          ({ status := 200,
             user := (findUserById userId updated.2).map toPublicUser }, updated.2)

/-! ## First-admin bootstrap (backend auth.service `createInitialAdmin`) -/

/-- The admin bootstrap configuration as exposed by `config/env.ts`:
`ADMIN_EMAIL` and `ADMIN_PASSWORD` default to the empty string when the
environment does not supply them, `ADMIN_NAME` defaults to `'Admin'`. -/
structure AdminEnv where
  ADMIN_EMAIL : String
  ADMIN_PASSWORD : String
  ADMIN_NAME : String
deriving DecidableEq, Repr

/-- `createInitialAdmin`: when `getUserCount() === 0 && env.ADMIN_EMAIL &&
env.ADMIN_PASSWORD` (JavaScript truthiness: the empty-string defaults are
falsy), create the one admin account with `emailVerified: 1` and the name
`env.ADMIN_NAME || 'Admin'`; otherwise do nothing. -/
def createInitialAdmin (env : AdminEnv) (hash : String → String) (now : Int) (db : Db) :
    Except SqlError Db :=
  if getUserCount db == 0 && env.ADMIN_EMAIL != "" && env.ADMIN_PASSWORD != "" then
    (backendCreateUser
      ⟨env.ADMIN_EMAIL, hash env.ADMIN_PASSWORD,
       (if env.ADMIN_NAME == "" then "Admin" else env.ADMIN_NAME), .admin, some 1⟩
      now db).map (fun created => created.2)
  else .ok db

/-! ## Helper lemmas -/

/-- Filtering a list by a predicate it already satisfies everywhere is the
identity; hence filtering twice equals filtering once. -/
theorem filter_filter_self {α : Type} (p : α → Bool) (l : List α) :
    (l.filter p).filter p = l.filter p := by
  rw [List.filter_eq_self]
  intro a ha
  exact (List.mem_filter.mp ha).2

/-- After deleting every row whose `token` equals `t`, a lookup of `t` finds
nothing, and appending rows with a different token keeps it that way. -/
theorem find?_token_eq_none_of_filter_append {α : Type} (tok : α → String)
    (l extra : List α) (t : String) (hextra : ∀ x ∈ extra, tok x ≠ t) :
    ((l.filter (fun r => tok r != t)) ++ extra).find? (fun r => tok r == t) = none := by
  rw [List.find?_eq_none]
  intro x hx
  rcases List.mem_append.mp hx with h | h
  · simpa using (List.mem_filter.mp h).2
  · simpa using hextra x h

/-- Specialisation of the previous lemma to an empty appended list. -/
theorem find?_token_eq_none_of_filter {α : Type} (tok : α → String)
    (l : List α) (t : String) :
    (l.filter (fun r => tok r != t)).find? (fun r => tok r == t) = none := by
  have h := find?_token_eq_none_of_filter_append tok l [] t (fun x hx => nomatch hx)
  rw [List.append_nil] at h
  exact h

/-! ## Theorems -/

/-- C2: on both login failure paths — no user with the email, and failed
password verification — `handleLogin` returns the identical response
(status 401, message `Ungültige Anmeldedaten`, no user, no access token, no
cookie) and leaves the store unchanged, so the caller cannot tell which
check failed and no token is issued or persisted. -/
theorem login_uniform_invalid_credentials
    (email password : String) (verify : String → String → Bool)
    (ctx : AuthCtx) (db : Db)
    (hemail : email ≠ "") (hpassword : password ≠ "") :
    (findUserByEmail email db = none →
      handleLogin email password verify ctx db = (errResp 401 "Ungültige Anmeldedaten", db)) ∧
    (∀ u, findUserByEmail email db = some u → verify password u.password_hash = false →
      handleLogin email password verify ctx db = (errResp 401 "Ungültige Anmeldedaten", db)) := by
  constructor
  · intro hfind
    simp [handleLogin, hemail, hpassword, hfind]
  · intro u hfind hverify
    simp [handleLogin, hemail, hpassword, hfind, hverify, errResp]

/-- Witness for C2: on a store holding one user, a wrong password and an
unknown email produce the very same response and leave the store intact. -/
theorem login_uniform_invalid_credentials_witness :
    handleLogin "nobody@x.test" "pw" (fun _ _ => false) ⟨0, none, 900, "r", 7⟩
        ⟨2, [⟨1, "a@x.test", "h", "A", .admin, 1, 0, 0⟩], [], []⟩ =
      (errResp 401 "Ungültige Anmeldedaten",
       ⟨2, [⟨1, "a@x.test", "h", "A", .admin, 1, 0, 0⟩], [], []⟩) ∧
    handleLogin "a@x.test" "wrong" (fun _ _ => false) ⟨0, none, 900, "r", 7⟩
        ⟨2, [⟨1, "a@x.test", "h", "A", .admin, 1, 0, 0⟩], [], []⟩ =
      (errResp 401 "Ungültige Anmeldedaten",
       ⟨2, [⟨1, "a@x.test", "h", "A", .admin, 1, 0, 0⟩], [], []⟩) :=
  ⟨(login_uniform_invalid_credentials "nobody@x.test" "pw" (fun _ _ => false)
      ⟨0, none, 900, "r", 7⟩ _ (by decide) (by decide)).1 (by decide),
   (login_uniform_invalid_credentials "a@x.test" "wrong" (fun _ _ => false)
      ⟨0, none, 900, "r", 7⟩ _ (by decide) (by decide)).2
      ⟨1, "a@x.test", "h", "A", .admin, 1, 0, 0⟩ (by decide) rfl⟩

/-- C9: `handleLogout` always answers 200 `Erfolgreich abgemeldet` and clears
the cookie; after it runs, the presented refresh-token value is absent from
the store; and running it twice with the same value equals running it once. -/
theorem logout_idempotent_always_succeeds (cookie : Option String) (db : Db) :
    (handleLogout cookie db).1 =
      { status := 200, message := some "Erfolgreich abgemeldet", setCookie := some "" } ∧
    (∀ t, cookie = some t → t ≠ "" →
      findRefreshToken t (handleLogout cookie db).2 = none) ∧
    handleLogout cookie (handleLogout cookie db).2 = handleLogout cookie db := by
  refine ⟨rfl, ?_, ?_⟩
  · intro t hc ht
    subst hc
    simp only [handleLogout, deleteRefreshToken, findRefreshToken, ht]
    rw [if_neg (by simpa using ht)]
    exact find?_token_eq_none_of_filter RefreshTokenRow.token db.refresh_tokens t
  · cases cookie with
    | none => rfl
    | some t =>
      by_cases ht : t = ""
      · subst ht; rfl
      · simp only [handleLogout, deleteRefreshToken]
        rw [if_neg (by simpa using ht), if_neg (by simpa using ht)]
        simp [filter_filter_self]

/-- Witness for C9: deleting a present token, then logging out again with the
same (now absent) value, changes nothing further and still succeeds. -/
theorem logout_idempotent_always_succeeds_witness :
    findRefreshToken "tok"
      (handleLogout (some "tok") ⟨1, [], [⟨1, "tok", 100, 0⟩], []⟩).2 = none :=
  (logout_idempotent_always_succeeds (some "tok") ⟨1, [], [⟨1, "tok", 100, 0⟩], []⟩).2.1
    "tok" rfl (by decide)

/-- C6: when the bearer token fails verification because it is expired,
`requireAuth` rejects with the machine-readable `code: 'TOKEN_EXPIRED'`
response; every other verification failure is rejected with the generic
`Ungültiger Token` response without a code; and the two responses differ. -/
theorem requireAuth_distinguishes_expired_from_invalid
    (tok : JwtInput) (secret : String) (now : Int) :
    (jwtVerify tok secret now = .error .expired →
      requireAuth (.bearer tok) secret now =
        .reject ⟨401, "Token abgelaufen", some "TOKEN_EXPIRED"⟩) ∧
    (jwtVerify tok secret now = .error .invalid →
      requireAuth (.bearer tok) secret now =
        .reject ⟨401, "Ungültiger Token", none⟩) ∧
    (⟨401, "Token abgelaufen", some "TOKEN_EXPIRED"⟩ : ErrorResponse) ≠
      ⟨401, "Ungültiger Token", none⟩ := by
  refine ⟨?_, ?_, by decide⟩
  · intro h
    simp [requireAuth, h]
  · intro h
    simp [requireAuth, h]

/-- Witness for C6: a token past its expiry is rejected with `TOKEN_EXPIRED`,
while the same token presented with the wrong secret gets the generic
rejection. -/
theorem requireAuth_distinguishes_expired_from_invalid_witness :
    requireAuth (.bearer (.signed ⟨⟨1, "a@x.test", .admin⟩, "s", 0, 10⟩)) "s" 20 =
      .reject ⟨401, "Token abgelaufen", some "TOKEN_EXPIRED"⟩ ∧
    requireAuth (.bearer (.signed ⟨⟨1, "a@x.test", .admin⟩, "other", 0, 10⟩)) "s" 20 =
      .reject ⟨401, "Ungültiger Token", none⟩ :=
  ⟨(requireAuth_distinguishes_expired_from_invalid
      (.signed ⟨⟨1, "a@x.test", .admin⟩, "s", 0, 10⟩) "s" 20).1 rfl,
   (requireAuth_distinguishes_expired_from_invalid
      (.signed ⟨⟨1, "a@x.test", .admin⟩, "other", 0, 10⟩) "s" 20).2.1 rfl⟩

/-- C10: with `JWT_SECRET` unset, the serverless `generateAccessToken` and
`verifyAccessToken` both fall back to the hard-coded constant
`default-secret-change-in-production`, and under that configuration any
token signed with the publicly known constant verifies successfully while
the verification time is strictly before its `exp` — in particular the
sign/verify round-trip holds throughout the token's lifetime. -/
theorem default_secret_fallback_roundtrip
    (p : TokenPayload) (now expSec verifyTime : Int) (st : SignedToken) :
    jwtSecretOf none = "default-secret-change-in-production" ∧
    generateAccessToken none p now expSec =
      jwtSign p "default-secret-change-in-production" now expSec ∧
    verifyAccessToken none (.signed st) verifyTime =
      jwtVerify (.signed st) "default-secret-change-in-production" verifyTime ∧
    (verifyTime < now + expSec →
      verifyAccessToken none (.signed (generateAccessToken none p now expSec)) verifyTime =
        .ok p) ∧
    (st.secret = "default-secret-change-in-production" → verifyTime < st.exp →
      verifyAccessToken none (.signed st) verifyTime = .ok st.payload) := by
  refine ⟨rfl, rfl, rfl, ?_, ?_⟩
  · intro h
    have h' : ¬ (now + expSec ≤ verifyTime) := not_le.mpr h
    simp [verifyAccessToken, generateAccessToken, jwtVerify, jwtSign, jwtSecretOf,
      defaultJwtSecret, h']
  · intro hs hexp
    have h' : ¬ (st.exp ≤ verifyTime) := not_le.mpr hexp
    simp [verifyAccessToken, jwtVerify, jwtSecretOf, defaultJwtSecret, hs, h']

/-- Witness for C10: a concrete payload signed at time 0 with a 900-second
lifetime under the default secret verifies at time 899 (strictly before its
expiry), and a token forged by anyone who knows the constant also verifies. -/
theorem default_secret_fallback_roundtrip_witness :
    verifyAccessToken none
      (.signed (generateAccessToken none ⟨1, "a@x.test", .admin⟩ 0 900)) 899 =
      .ok ⟨1, "a@x.test", .admin⟩ ∧
    verifyAccessToken none
      (.signed ⟨⟨7, "forged@x.test", .admin⟩, "default-secret-change-in-production", 0, 900⟩)
      899 = .ok ⟨7, "forged@x.test", .admin⟩ :=
  ⟨(default_secret_fallback_roundtrip ⟨1, "a@x.test", .admin⟩ 0 900 899
      ⟨⟨1, "a@x.test", .admin⟩, "x", 0, 0⟩).2.2.2.1 (by decide),
   (default_secret_fallback_roundtrip ⟨7, "forged@x.test", .admin⟩ 0 900 899
      ⟨⟨7, "forged@x.test", .admin⟩, "default-secret-change-in-production", 0, 900⟩).2.2.2.2
      rfl (by decide)⟩

/-- C7: when the authenticated caller's `payload.userId` equals the target id
of a delete-user or role-update request — the request being otherwise valid,
whatever the caller's role — both handlers answer 400 with the self-protection
message and return before any store delegation, leaving the store (and so the
target user and its role) unchanged. -/
theorem self_protection_guards
    (payload : TokenPayload) (uid : Nat) (roleStr : String) (r : Role)
    (now : Int) (db : Db)
    (hself : payload.userId = uid)
    (hrole : roleOfString roleStr = some r) :
    deleteUserHandler payload (some uid) db =
      (errResp 400 "Sie können sich nicht selbst löschen", db) ∧
    updateRoleHandler payload (some uid) (some roleStr) now db =
      (errResp 400 "Sie können Ihre eigene Rolle nicht ändern", db) := by
  constructor
  · simp [deleteUserHandler, hself]
  · simp [updateRoleHandler, hself, hrole]

/-- Witness for C7: an admin aiming delete and role-update at their own id is
rejected and the store is untouched. -/
theorem self_protection_guards_witness :
    deleteUserHandler ⟨3, "a@x.test", .admin⟩ (some 3)
        ⟨4, [⟨3, "a@x.test", "h", "A", .admin, 1, 0, 0⟩], [], []⟩ =
      (errResp 400 "Sie können sich nicht selbst löschen",
       ⟨4, [⟨3, "a@x.test", "h", "A", .admin, 1, 0, 0⟩], [], []⟩) ∧
    updateRoleHandler ⟨3, "a@x.test", .admin⟩ (some 3) (some "viewer") 5
        ⟨4, [⟨3, "a@x.test", "h", "A", .admin, 1, 0, 0⟩], [], []⟩ =
      (errResp 400 "Sie können Ihre eigene Rolle nicht ändern",
       ⟨4, [⟨3, "a@x.test", "h", "A", .admin, 1, 0, 0⟩], [], []⟩) :=
  self_protection_guards ⟨3, "a@x.test", .admin⟩ 3 "viewer" .viewer 5
    ⟨4, [⟨3, "a@x.test", "h", "A", .admin, 1, 0, 0⟩], [], []⟩ rfl rfl

/-- C8: `createInitialAdmin` creates exactly one user — with the configured
admin email, role `admin` and `email_verified = 1` — exactly when the user
count is zero and both `ADMIN_EMAIL` and `ADMIN_PASSWORD` are configured
(non-empty); in every other case it returns the store unchanged. -/
theorem createInitialAdmin_iff_empty_and_configured
    (env : AdminEnv) (hash : String → String) (now : Int) (db : Db) :
    (getUserCount db = 0 → env.ADMIN_EMAIL ≠ "" → env.ADMIN_PASSWORD ≠ "" →
      ∃ u : User,
        createInitialAdmin env hash now db =
          .ok { db with nextUserId := db.nextUserId + 1, users := db.users ++ [u] } ∧
        u.email = env.ADMIN_EMAIL ∧ u.role = .admin ∧ u.email_verified = 1 ∧
        getUserCount { db with nextUserId := db.nextUserId + 1, users := db.users ++ [u] }
          = 1) ∧
    ((getUserCount db ≠ 0 ∨ env.ADMIN_EMAIL = "" ∨ env.ADMIN_PASSWORD = "") →
      createInitialAdmin env hash now db = .ok db) := by
  constructor
  · intro hcount hemail hpassword
    refine ⟨⟨db.nextUserId, env.ADMIN_EMAIL, hash env.ADMIN_PASSWORD,
      (if env.ADMIN_NAME == "" then "Admin" else env.ADMIN_NAME), .admin, 1, now, now⟩,
      ?_, rfl, rfl, rfl, ?_⟩
    · simp [createInitialAdmin, backendCreateUser, hcount, hemail, hpassword, Except.map]
    · simp [getUserCount] at hcount ⊢
      simp [hcount]
  · intro h
    rcases h with h | h | h
    · simp [createInitialAdmin, h]
    · simp [createInitialAdmin, h]
    · simp [createInitialAdmin, h]

/-- Witness for C8: bootstrapping an empty store with configured credentials
creates the single pre-verified admin; a store that already has a user, or a
missing configuration value, is left unchanged. -/
theorem createInitialAdmin_iff_empty_and_configured_witness :
    (∃ u : User,
      createInitialAdmin ⟨"admin@x.test", "Secret123", "Admin"⟩ (fun s => s) 0 ⟨1, [], [], []⟩ =
        .ok { Db.mk 1 [] [] [] with nextUserId := 2, users := [] ++ [u] } ∧
      u.email = "admin@x.test" ∧ u.role = .admin ∧ u.email_verified = 1 ∧
      getUserCount { Db.mk 1 [] [] [] with nextUserId := 2, users := [] ++ [u] } = 1) ∧
    createInitialAdmin ⟨"", "Secret123", "Admin"⟩ (fun s => s) 0 ⟨1, [], [], []⟩ =
      .ok ⟨1, [], [], []⟩ :=
  ⟨(createInitialAdmin_iff_empty_and_configured ⟨"admin@x.test", "Secret123", "Admin"⟩
      (fun s => s) 0 ⟨1, [], [], []⟩).1 rfl (by decide) (by decide),
   (createInitialAdmin_iff_empty_and_configured ⟨"", "Secret123", "Admin"⟩
      (fun s => s) 0 ⟨1, [], [], []⟩).2 (Or.inr (Or.inl rfl))⟩

/-- The store after a successful rotation at `handleRefresh`: every row
holding the presented token is gone and the single freshly generated token
for the owning user is appended. -/
def rotatedDb (db : Db) (t : String) (uid : Nat) (ctx : AuthCtx) : Db :=
  { db with refresh_tokens :=
      db.refresh_tokens.filter (fun r => r.token != t) ++
        [⟨uid, ctx.newRefreshToken, ctx.refreshExpiry, ctx.now⟩] }

/-- C1: a refresh with a stored, unexpired token owned by an existing user
succeeds, deletes the presented token and persists exactly one brand-new
refresh token for that user; presenting the same value again therefore finds
no stored token, fails with the unknown-token error (401 `Ungültiger
Refresh-Token`) and issues nothing.  The freshness hypothesis records that
the random 128-hex-character replacement differs from the presented value. -/
theorem refresh_rotation_single_use
    (db : Db) (ctx ctx' : AuthCtx) (t : String) (row : RefreshTokenRow) (u : User)
    (ht : t ≠ "")
    (hfind : findRefreshToken t db = some row)
    (hexp : ¬ row.expires_at < ctx.now)
    (huser : findUserById row.user_id db = some u)
    (hfresh : ctx.newRefreshToken ≠ t) :
    handleRefresh (some t) ctx db =
      ({ status := 200, user := some (toPublicUser u),
         accessToken := some (generateAccessToken ctx.jwtSecretEnv
           ⟨u.id, u.email, u.role⟩ ctx.now ctx.accessExpSec),
         setCookie := some ctx.newRefreshToken }, rotatedDb db t u.id ctx) ∧
    findRefreshToken t (rotatedDb db t u.id ctx) = none ∧
    handleRefresh (some t) ctx' (rotatedDb db t u.id ctx) =
      (errResp 401 "Ungültiger Refresh-Token", rotatedDb db t u.id ctx) := by
  have hnone : findRefreshToken t (rotatedDb db t u.id ctx) = none := by
    unfold findRefreshToken rotatedDb
    exact find?_token_eq_none_of_filter_append RefreshTokenRow.token db.refresh_tokens _ t
      (by intro x hx; simp at hx; simp [hx, hfresh])
  refine ⟨?_, hnone, ?_⟩
  · simp [handleRefresh, ht, hfind, hexp, huser, deleteRefreshToken, saveRefreshToken,
      rotatedDb]
  · simp [handleRefresh, ht, hnone]

/-- Witness for C1: rotating a concrete stored token yields the predicted
store and the immediate second presentation of the same value fails with the
unknown-token error. -/
theorem refresh_rotation_single_use_witness :
    handleRefresh (some "old") ⟨10, none, 900, "new", 800⟩
        ⟨2, [⟨1, "a@x.test", "h", "A", .admin, 1, 0, 0⟩], [⟨1, "old", 100, 0⟩], []⟩ =
      ({ status := 200,
         user := some (toPublicUser ⟨1, "a@x.test", "h", "A", .admin, 1, 0, 0⟩),
         accessToken := some (generateAccessToken none ⟨1, "a@x.test", .admin⟩ 10 900),
         setCookie := some "new" },
       rotatedDb ⟨2, [⟨1, "a@x.test", "h", "A", .admin, 1, 0, 0⟩], [⟨1, "old", 100, 0⟩], []⟩
         "old" 1 ⟨10, none, 900, "new", 800⟩) ∧
    handleRefresh (some "old") ⟨10, none, 900, "new", 800⟩
        (rotatedDb ⟨2, [⟨1, "a@x.test", "h", "A", .admin, 1, 0, 0⟩], [⟨1, "old", 100, 0⟩], []⟩
          "old" 1 ⟨10, none, 900, "new", 800⟩) =
      (errResp 401 "Ungültiger Refresh-Token",
       rotatedDb ⟨2, [⟨1, "a@x.test", "h", "A", .admin, 1, 0, 0⟩], [⟨1, "old", 100, 0⟩], []⟩
         "old" 1 ⟨10, none, 900, "new", 800⟩) :=
  ⟨(refresh_rotation_single_use
      ⟨2, [⟨1, "a@x.test", "h", "A", .admin, 1, 0, 0⟩], [⟨1, "old", 100, 0⟩], []⟩
      ⟨10, none, 900, "new", 800⟩ ⟨10, none, 900, "new", 800⟩ "old" ⟨1, "old", 100, 0⟩
      ⟨1, "a@x.test", "h", "A", .admin, 1, 0, 0⟩
      (by decide) rfl (by decide) rfl (by decide)).1,
   (refresh_rotation_single_use
      ⟨2, [⟨1, "a@x.test", "h", "A", .admin, 1, 0, 0⟩], [⟨1, "old", 100, 0⟩], []⟩
      ⟨10, none, 900, "new", 800⟩ ⟨10, none, 900, "new", 800⟩ "old" ⟨1, "old", 100, 0⟩
      ⟨1, "a@x.test", "h", "A", .admin, 1, 0, 0⟩
      (by decide) rfl (by decide) rfl (by decide)).2.2⟩

/-- On every exit path that `handleVerifyEmail` takes after finding the
token — expiry, duplicate email, and success — the resulting store's
verification table is the original one with every row holding that token
removed. -/
theorem handleVerifyEmail_deletes_found_token
    (db : Db) (t : String) (row : VerificationTokenRow) (now : Int)
    (ht : t ≠ "")
    (hfind : findVerificationToken t db = some row) :
    (handleVerifyEmail t now db).2.verification_tokens =
      db.verification_tokens.filter (fun v => v.token != t) := by
  simp only [handleVerifyEmail, hfind]
  rw [if_neg (by simpa using ht)]
  by_cases hexp : row.expires_at < now
  · simp [hexp, deleteVerificationToken]
  · cases hdup : findUserByEmail row.email db with
    | some u => simp [hexp, hdup, deleteVerificationToken]
    | none => simp [hexp, hdup, deleteVerificationToken, createUser]

/-- C4: whenever `handleVerifyEmail` finds the presented token, the token is
deleted from the store on every exit path — expiry, a user with that email
already existing, and success — so a second call with the same token always
fails with the unknown-token error (400 `Ungültiger oder abgelaufener
Verifizierungstoken`) and changes nothing. -/
theorem verifyEmail_single_use
    (db : Db) (t : String) (row : VerificationTokenRow) (now now' : Int)
    (ht : t ≠ "")
    (hfind : findVerificationToken t db = some row) :
    findVerificationToken t (handleVerifyEmail t now db).2 = none ∧
    handleVerifyEmail t now' (handleVerifyEmail t now db).2 =
      (errResp 400 "Ungültiger oder abgelaufener Verifizierungstoken",
       (handleVerifyEmail t now db).2) := by
  have hnone : findVerificationToken t (handleVerifyEmail t now db).2 = none := by
    unfold findVerificationToken
    rw [handleVerifyEmail_deletes_found_token db t row now ht hfind]
    exact find?_token_eq_none_of_filter VerificationTokenRow.token db.verification_tokens t
  refine ⟨hnone, ?_⟩
  generalize hdb1 : (handleVerifyEmail t now db).2 = db1 at hnone ⊢
  simp [handleVerifyEmail, ht, hnone]

/-- Witness for C4: verifying a concrete pending registration succeeds once;
the second call with the same token fails with the unknown-token error and
leaves the store as the first call left it. -/
theorem verifyEmail_single_use_witness :
    findVerificationToken "vt"
      (handleVerifyEmail "vt" 10 ⟨1, [], [], [⟨"u@x.test", "vt", "U", "h", 100, 0⟩]⟩).2 =
        none ∧
    handleVerifyEmail "vt" 20
        (handleVerifyEmail "vt" 10 ⟨1, [], [], [⟨"u@x.test", "vt", "U", "h", 100, 0⟩]⟩).2 =
      (errResp 400 "Ungültiger oder abgelaufener Verifizierungstoken",
       (handleVerifyEmail "vt" 10 ⟨1, [], [], [⟨"u@x.test", "vt", "U", "h", 100, 0⟩]⟩).2) :=
  verifyEmail_single_use ⟨1, [], [], [⟨"u@x.test", "vt", "U", "h", 100, 0⟩]⟩ "vt"
    ⟨"u@x.test", "vt", "U", "h", 100, 0⟩ 10 20 (by decide) rfl

/-- The §3 invariant: at most one live verification token per email. -/
def atMostOnePerEmail (db : Db) : Prop :=
  ∀ e : String, db.verification_tokens.countP (fun v => v.email == e) ≤ 1

/-- After deleting every row with a given email, no row with that email is
counted. -/
theorem countP_email_filter_ne (l : List VerificationTokenRow) (em : String) :
    (l.filter (fun v => v.email != em)).countP (fun v => v.email == em) = 0 := by
  rw [List.countP_eq_zero]
  intro a ha
  simpa using (List.mem_filter.mp ha).2

/-- A store whose verification table is a sublist of an invariant-satisfying
store's table satisfies the invariant as well. -/
theorem atMostOnePerEmail_of_sublist (db db' : Db)
    (h : db'.verification_tokens.Sublist db.verification_tokens)
    (hinv : atMostOnePerEmail db) : atMostOnePerEmail db' :=
  fun e => le_trans (h.countP_le _) (hinv e)

/-- Delete-then-insert: `createVerificationToken` preserves the invariant and
leaves exactly one token for the email it writes. -/
theorem createVerificationToken_preserves
    (p : CreateVerificationTokenParams) (now : Int) (db : Db)
    (hinv : atMostOnePerEmail db) :
    atMostOnePerEmail (createVerificationToken p now db) ∧
    (createVerificationToken p now db).verification_tokens.countP
      (fun v => v.email == p.email) = 1 := by
  have hone : (createVerificationToken p now db).verification_tokens.countP
      (fun v => v.email == p.email) = 1 := by
    unfold createVerificationToken
    rw [List.countP_append, countP_email_filter_ne]
    simp
  refine ⟨?_, hone⟩
  intro e
  by_cases he : p.email = e
  · subst he
    exact le_of_eq hone
  · unfold createVerificationToken
    rw [List.countP_append]
    have h2 : List.countP (fun v => v.email == e)
        ([⟨p.email, p.token, p.name, p.passwordHash, p.expiresAt, now⟩] :
          List VerificationTokenRow) = 0 := by
      simp [he]
    rw [h2, Nat.add_zero]
    exact le_trans ((List.filter_sublist _).countP_le _) (hinv e)

/-- `handleLogin` never touches the verification table. -/
theorem handleLogin_verification_tokens
    (email password : String) (verify : String → String → Bool) (ctx : AuthCtx) (db : Db) :
    (handleLogin email password verify ctx db).2.verification_tokens =
      db.verification_tokens := by
  unfold handleLogin saveRefreshToken
  split
  · rfl
  · split
    · rfl
    · split <;> rfl

/-- `handleLogout` never touches the verification table. -/
theorem handleLogout_verification_tokens (cookie : Option String) (db : Db) :
    (handleLogout cookie db).2.verification_tokens = db.verification_tokens := by
  unfold handleLogout deleteRefreshToken
  split <;> first | rfl | (split <;> rfl)

/-- `handleRefresh` never touches the verification table. -/
theorem handleRefresh_verification_tokens (cookie : Option String) (ctx : AuthCtx) (db : Db) :
    (handleRefresh cookie ctx db).2.verification_tokens = db.verification_tokens := by
  unfold handleRefresh deleteRefreshToken saveRefreshToken
  split
  · rfl
  · split
    · rfl
    · split
      · rfl
      · split
        · rfl
        · split <;> rfl

/-- The serverless admin-registration handler never touches the verification
table. -/
theorem handleRegister_verification_tokens
    (auth : Option JwtInput) (hash : String → String) (ctx : AuthCtx)
    (email password name : String) (role : Option String) (db : Db) :
    (handleRegister auth hash ctx email password name role db).2.verification_tokens =
      db.verification_tokens := by
  simp only [handleRegister, createUser]
  split
  · rfl
  · split
    · rfl
    · split
      · rfl
      · split
        · rfl
        · split
          · rfl
          · split <;> rfl

/-- `createInitialAdmin` never touches the verification table. -/
theorem createInitialAdmin_verification_tokens
    (env : AdminEnv) (hash : String → String) (now : Int) (db db' : Db)
    (h : createInitialAdmin env hash now db = .ok db') :
    db'.verification_tokens = db.verification_tokens := by
  unfold createInitialAdmin backendCreateUser at h
  split at h
  · simp [Except.map] at h
    rw [← h]
  · simp at h
    rw [← h]

/-- `handleVerifyEmail` only ever removes verification rows. -/
theorem handleVerifyEmail_verification_tokens_sublist (t : String) (now : Int) (db : Db) :
    (handleVerifyEmail t now db).2.verification_tokens.Sublist db.verification_tokens := by
  unfold handleVerifyEmail deleteVerificationToken createUser
  split
  · exact List.Sublist.refl _
  · split
    · exact List.Sublist.refl _
    · split
      · exact List.filter_sublist _
      · split
        · exact List.filter_sublist _
        · exact List.filter_sublist _

/-- `handleRegisterPublic` either leaves the store unchanged or performs the
delete-then-insert of `createVerificationToken`. -/
theorem handleRegisterPublic_verification_tokens
    (regEnv : Option String) (email password name : String) (hash : String → String)
    (tokVal : String) (now expy : Int) (mailerOk : Bool) (db : Db) :
    (handleRegisterPublic regEnv email password name hash tokVal now expy mailerOk db).2 = db ∨
    (handleRegisterPublic regEnv email password name hash tokVal now expy mailerOk db).2 =
      createVerificationToken ⟨email, tokVal, name, hash password, expy⟩ now db := by
  unfold handleRegisterPublic
  split
  · exact Or.inl rfl
  · split
    · exact Or.inl rfl
    · split
      · exact Or.inl rfl
      · split
        · exact Or.inl rfl
        · split
          · exact Or.inl rfl
          · split <;> exact Or.inr rfl

/-- C5: every store satisfying the at-most-one-verification-token-per-email
invariant keeps satisfying it under every auth operation; in particular the
delete-then-insert `createVerificationToken` leaves exactly one live token
for the email it writes. -/
theorem at_most_one_verification_token_per_email
    (db : Db) (hinv : atMostOnePerEmail db) :
    (∀ p now, atMostOnePerEmail (createVerificationToken p now db) ∧
      (createVerificationToken p now db).verification_tokens.countP
        (fun v => v.email == p.email) = 1) ∧
    (∀ t, atMostOnePerEmail (deleteVerificationToken t db).2) ∧
    (∀ now, atMostOnePerEmail (cleanupExpiredVerificationTokens now db)) ∧
    (∀ regEnv email password name hash tokVal now expy mailerOk,
      atMostOnePerEmail
        (handleRegisterPublic regEnv email password name hash tokVal now expy mailerOk db).2) ∧
    (∀ t now, atMostOnePerEmail (handleVerifyEmail t now db).2) ∧
    (∀ email password verify ctx,
      atMostOnePerEmail (handleLogin email password verify ctx db).2) ∧
    (∀ cookie, atMostOnePerEmail (handleLogout cookie db).2) ∧
    (∀ cookie ctx, atMostOnePerEmail (handleRefresh cookie ctx db).2) ∧
    (∀ auth hash ctx email password name role,
      atMostOnePerEmail (handleRegister auth hash ctx email password name role db).2) ∧
    (∀ env hash now db', createInitialAdmin env hash now db = .ok db' →
      atMostOnePerEmail db') := by
  refine ⟨fun p now => createVerificationToken_preserves p now db hinv,
    ?_, ?_, ?_, ?_, ?_, ?_, ?_, ?_, ?_⟩
  · intro t
    exact atMostOnePerEmail_of_sublist db _ (List.filter_sublist _) hinv
  · intro now
    exact atMostOnePerEmail_of_sublist db _ (List.filter_sublist _) hinv
  · intro regEnv email password name hash tokVal now expy mailerOk
    rcases handleRegisterPublic_verification_tokens regEnv email password name hash
      tokVal now expy mailerOk db with h | h
    · rw [h]; exact hinv
    · rw [h]
      exact (createVerificationToken_preserves _ now db hinv).1
  · intro t now
    exact atMostOnePerEmail_of_sublist db _
      (handleVerifyEmail_verification_tokens_sublist t now db) hinv
  · intro email password verify ctx e
    rw [handleLogin_verification_tokens email password verify ctx db]
    exact hinv e
  · intro cookie e
    rw [handleLogout_verification_tokens cookie db]
    exact hinv e
  · intro cookie ctx e
    rw [handleRefresh_verification_tokens cookie ctx db]
    exact hinv e
  · intro auth hash ctx email password name role e
    rw [handleRegister_verification_tokens auth hash ctx email password name role db]
    exact hinv e
  · intro env hash now db' h e
    rw [createInitialAdmin_verification_tokens env hash now db db' h]
    exact hinv e

/-- Witness for C5: a store already holding a pending registration for an
email satisfies the invariant, and re-registering the same email replaces
rather than accumulates — exactly one token for it remains. -/
theorem at_most_one_verification_token_per_email_witness :
    atMostOnePerEmail
      (createVerificationToken ⟨"u@x.test", "vt2", "U", "h2", 200⟩ 5
        ⟨1, [], [], [⟨"u@x.test", "vt1", "U", "h1", 100, 0⟩]⟩) ∧
    (createVerificationToken ⟨"u@x.test", "vt2", "U", "h2", 200⟩ 5
        ⟨1, [], [], [⟨"u@x.test", "vt1", "U", "h1", 100, 0⟩]⟩).verification_tokens.countP
      (fun v => v.email == "u@x.test") = 1 :=
  (at_most_one_verification_token_per_email
      ⟨1, [], [], [⟨"u@x.test", "vt1", "U", "h1", 100, 0⟩]⟩
      (by
        intro e
        by_cases h : "u@x.test" = e <;>
          simp [atMostOnePerEmail, List.countP_cons, h])).1
    ⟨"u@x.test", "vt2", "U", "h2", 200⟩ 5

/-- C3: divergence of the two deployment variants on admin-issued
registration with a fresh email and a valid role.  The serverless
`handleRegister` persists the new user with `email_verified = 1` as the spec
states; the backend `router.post('/register')` omits `emailVerified` from its
`createUser` call even though the prepared INSERT names `@emailVerified`, so
better-sqlite3 throws, the route answers 500, and no user is persisted at
all. -/
theorem register_emailVerified_backend_divergence :
    backendRegister (fun s => String.append "hashed:" s) 0 "new@x.test" "Passw0rd!" "New"
        (some "viewer") ⟨1, [], [], []⟩ =
      (errResp 500 "Interner Serverfehler", ⟨1, [], [], []⟩) ∧
    ((handleRegister
        (some (.signed ⟨⟨9, "admin@x.test", .admin⟩,
          "default-secret-change-in-production", 0, 900⟩))
        (fun s => String.append "hashed:" s) ⟨0, none, 900, "r", 7⟩ "new@x.test" "Passw0rd!"
        "New" (some "viewer") ⟨1, [], [], []⟩).2.users.map
      (fun u => (u.email, u.email_verified))) = [("new@x.test", 1)] := by
  constructor
  · rfl
  · rfl

end Staplercup
